import Mathlib

/-!
Verification development for the AI-Enhanced-Patient-Healthcare diagnostic
workflow engine.  The definitions below are shallow embeddings of the Python
source (backend nodes, adapters, routers and the workflow state manager);
floating point arithmetic is modelled by exact rationals, Python `None` by
`Option.none`, and a Python exception by an `Option.none` result of the
embedded function.
-/

namespace Healthcare

/-- Python `\s` character class restricted to ASCII, as used by `str.strip`,
`str.split()` and the regular expressions in the source. -/
def pyIsSpace (c : Char) : Bool :=
  c = ' ' || c = '\t' || c = '\n' || c = '\r' || c = '\x0b' || c = '\x0c'

/-- Python `str.strip()`: remove leading and trailing whitespace. -/
def pyStrip (s : String) : String :=
  String.mk (((s.data.dropWhile pyIsSpace).reverse.dropWhile pyIsSpace).reverse)

/-- ASCII lower-casing of one character (Python `str.lower()`; the inputs the
source lower-cases are ASCII). -/
def pyLowerChar (c : Char) : Char :=
  if 'A' ≤ c ∧ c ≤ 'Z' then Char.ofNat (c.toNat + 32) else c

/-- Python `str.lower()`. -/
def pyLower (s : String) : String :=
  String.mk (s.data.map pyLowerChar)

/-- Helper for `strContains`: does `needle` occur as a contiguous sublist of
`hay`?  (Python `needle in hay` on strings.) -/
def containsSub (hay needle : List Char) : Bool :=
  needle.isPrefixOf hay ||
    match hay with
    | [] => false
    | _ :: t => containsSub t needle

/-- Python `needle in hay` substring test. -/
def strContains (hay needle : String) : Bool :=
  containsSub hay.data needle.data

/-- Python `str.split()` (split on runs of whitespace, no empty words). -/
def pyWordsAux : List Char → List Char → List String
  | [], [] => []
  | [], acc => [String.mk acc.reverse]
  | c :: t, acc =>
    if pyIsSpace c then
      match acc with
      | [] => pyWordsAux t []
      | _ => String.mk acc.reverse :: pyWordsAux t []
    else pyWordsAux t (c :: acc)

def pyWords (s : String) : List String := pyWordsAux s.data []

/-! ## Risk assessment engine
`FollowUpInteractionNode.analyze_skin_cancer_risk`
(src/backend/nodes/follow_up_interaction_node.py). -/

/-- One entry of the `detail` list built by `analyze_skin_cancer_risk`. -/
structure RiskDetail where
  index : Nat
  question : String
  answer : String
  category : String
  weight : ℚ
  value : ℚ
  contribution : ℚ
  adjunct : Bool
  deriving Repr, DecidableEq

/-- The `weights` table of `analyze_skin_cancer_risk`:
index ↦ (category, weight, is adjunct), with the `.get` default
`("OTHER", 0, True)` for indices past the seven fixed questions. -/
def skinWeights (idx : Nat) : String × ℚ × Bool :=
  match idx with
  | 0 => ("A", 2, false)
  | 1 => ("B", 2, false)
  | 2 => ("C", 2, false)
  | 3 => ("D", 1, false)
  | 4 => ("E", 2, false)
  | 5 => ("SYMPTOMS", 1, true)
  | 6 => ("HISTORY", 1, true)
  | _ => ("OTHER", 0, true)

/-- `resp_value`: "yes" ↦ 1.0, "neutral" ↦ 0.5, anything else ↦ 0.0,
after `strip().lower()`. -/
def respValue (r : String) : ℚ :=
  let r' := pyLower (pyStrip r)
  if r' = "yes" then 1 else if r' = "neutral" then (1 : ℚ)/2 else 0

/-- Build one `detail` entry from an (index, question, answer) triple. -/
def mkRiskDetail (idx : Nat) (question answer : String) : RiskDetail :=
  let w := skinWeights idx
  let val := respValue answer
  { index := idx, question := question, answer := answer,
    category := w.1, weight := w.2.1, value := val,
    contribution := w.2.1 * val, adjunct := w.2.2 }

/-- The `detail` list accumulated by the loop of `analyze_skin_cancer_risk`,
starting at enumeration index `idx`. -/
def riskDetailsAux (idx : Nat) : List (String × String) → List RiskDetail
  | [] => []
  | (q, a) :: rest => mkRiskDetail idx q a :: riskDetailsAux (idx + 1) rest

def riskDetails (responses : List (String × String)) : List RiskDetail :=
  riskDetailsAux 0 responses

/-- The aggregate record returned (as `risk_metrics`) by
`analyze_skin_cancer_risk`. -/
structure RiskMetrics where
  core_score : ℚ
  adjunct_score : ℚ
  risk_level : String
  image_recommended : Bool
  any_adjunct_yes : Bool
  details : List RiskDetail
  deriving Repr, DecidableEq

/-- `core_score` accumulation over the detail list (non-adjunct
contributions). -/
def coreScoreOf (ds : List RiskDetail) : ℚ :=
  ds.foldl (fun acc d => if d.adjunct then acc else acc + d.contribution) 0

/-- `adjunct_score` accumulation over the detail list (adjunct
contributions). -/
def adjunctScoreOf (ds : List RiskDetail) : ℚ :=
  ds.foldl (fun acc d => if d.adjunct then acc + d.contribution else acc) 0

/-- `any_adjunct_yes`: some detail entry is adjunct, has value 1.0 and a
positive weight. -/
def anyAdjunctYesOf (ds : List RiskDetail) : Bool :=
  ds.any (fun d => d.adjunct && d.value = 1 && decide (0 < d.weight))

/-- The risk stratification cascade of `analyze_skin_cancer_risk`. -/
def riskLevelOf (core : ℚ) (anyAdjYes : Bool) : String :=
  if 6 ≤ core ∨ (5 ≤ core ∧ anyAdjYes) then "high"
  else if (4 ≤ core ∧ core ≤ 5) ∨ (core = 3 ∧ anyAdjYes) then "moderate"
  else "low"

/-- `FollowUpInteractionNode.analyze_skin_cancer_risk`.  Takes the answered
questionnaire as an ordered association list (a Python dict preserves
insertion order) and returns `(image_recommended, risk_metrics)`. -/
def analyze_skin_cancer_risk (responses : List (String × String)) :
    Bool × RiskMetrics :=
  let detail := riskDetails responses
  let core_score := coreScoreOf detail
  let adjunct_score := adjunctScoreOf detail
  let any_adjunct_yes := anyAdjunctYesOf detail
  let risk_level := riskLevelOf core_score any_adjunct_yes
  let image_recommended :=
    risk_level = "high" || (risk_level = "moderate" && any_adjunct_yes)
  (image_recommended,
   { core_score := core_score, adjunct_score := adjunct_score,
     risk_level := risk_level, image_recommended := image_recommended,
     any_adjunct_yes := any_adjunct_yes, details := detail })

/-! ## Confidence scorer
`LocalModelAdapter._calculate_enhanced_confidence` and its sub-scores
(src/backend/adapters/local_model_adapter4.py). -/

/-- `medical_terms` of `_calculate_diagnosis_specificity`. -/
def medicalTerms : List String :=
  ["syndrome", "disease", "disorder", "condition", "infection",
   "deficiency", "inflammation", "acute", "chronic", "primary", "secondary"]

/-- `specificity_indicators` of `_calculate_diagnosis_specificity`. -/
def specificityIndicators : List String :=
  ["stage", "grade", "type", "variant", "sub", "mild", "severe", "moderate"]

/-- `LocalModelAdapter._calculate_diagnosis_specificity`. -/
def calculate_diagnosis_specificity (diagnosis : String) : ℚ :=
  let word_count : ℚ := ((pyWords diagnosis).length : ℚ)
  let has_medical_terms :=
    medicalTerms.any (fun t => strContains (pyLower diagnosis) (pyLower t))
  let has_specificity :=
    specificityIndicators.any (fun i => strContains (pyLower diagnosis) (pyLower i))
  let score : ℚ := 1/2 + min (3/10) (word_count * (1/20)) +
    (if has_medical_terms then 3/20 else 0) +
    (if has_specificity then 1/10 else 0)
  min 1 score

/-- `alignment_keywords` of `_calculate_symptom_alignment`
(symptom phrase ↦ related diagnosis terms), in dict insertion order. -/
def alignmentKeywords : List (String × List String) :=
  [("chest pain", ["heart", "cardiac", "angina", "myocardial", "coronary"]),
   ("headache", ["migraine", "tension", "cluster", "neurological"]),
   ("fever", ["infection", "inflammatory", "viral", "bacterial"]),
   ("cough", ["respiratory", "bronchitis", "pneumonia", "asthma"]),
   ("fatigue", ["anemia", "thyroid", "depression", "chronic"]),
   ("skin", ["dermatitis", "eczema", "psoriasis", "rash", "lesion"])]

/-- `LocalModelAdapter._calculate_symptom_alignment`: base 0.5, +0.1 per
symptom word occurring inside some diagnosis word, +0.15 per alignment-table
row whose phrase occurs in the symptoms and one of whose terms occurs in the
diagnosis; capped at 1. -/
def calculate_symptom_alignment (diagnosis symptoms : String) : ℚ :=
  if symptoms = "" then 1/2
  else
    let symptom_keywords := pyWords (pyLower symptoms)
    let diagnosis_keywords := pyWords (pyLower diagnosis)
    let direct : ℚ :=
      ((symptom_keywords.filter
        (fun sw => diagnosis_keywords.any (fun dw => strContains dw sw))).length : ℚ)
    let table : ℚ :=
      ((alignmentKeywords.filter
        (fun p => strContains (pyLower symptoms) p.1 &&
          p.2.any (fun t => strContains (pyLower diagnosis) t))).length : ℚ)
    min 1 (1/2 + direct * (1/10) + table * (3/20))

/-- `common_conditions` of `_get_condition_commonality`. -/
def commonConditions : List String :=
  ["common cold", "flu", "hypertension", "diabetes", "migraine",
   "tension headache", "gastritis", "bronchitis", "pneumonia",
   "urinary tract infection", "allergic rhinitis", "asthma", "eczema",
   "anemia", "depression", "anxiety", "otitis media", "sinusitis",
   "conjunctivitis", "gastroenteritis", "osteoarthritis", "back pain",
   "hyperlipidemia", "obesity", "hypothyroidism",
   "upper respiratory infection", "acute pharyngitis", "acute tonsillitis",
   "acute otitis externa", "acute sinusitis", "acute bronchitis",
   "acute gastroenteritis", "acute cystitis", "acute laryngitis",
   "acute conjunctivitis", "acute dermatitis", "acute urticaria",
   "acute allergic reaction", "acute viral infection",
   "acute bacterial infection", "sprain", "strain", "muscle pain",
   "tension-type headache", "seasonal allergies", "indigestion", "heartburn",
   "constipation", "diarrhea", "insomnia", "fatigue", "menstrual cramps",
   "acne", "dandruff"]

/-- `rare_conditions` of `_get_condition_commonality`. -/
def rareConditions : List String :=
  ["lupus", "multiple sclerosis", "rare genetic", "exotic",
   "zebra diagnosis", "uncommon", "atypical", "amyloidosis", "sarcoidosis",
   "porphyria", "prion disease", "ehlers-danlos", "marfan syndrome",
   "wilson disease", "gauchers disease", "fabry disease", "tay-sachs",
   "kawasaki disease", "behcet disease", "goodpasture syndrome",
   "churg-strauss", "wegener granulomatosis", "sjogren syndrome",
   "myasthenia gravis", "lambert-eaton", "paraneoplastic",
   "idiopathic pulmonary fibrosis", "idiopathic thrombocytopenic purpura",
   "pemphigus vulgaris", "dermatomyositis", "polymyositis",
   "stiff person syndrome", "progressive multifocal leukoencephalopathy",
   "creutzfeldt-jakob", "alport syndrome", "retinitis pigmentosa",
   "hereditary angioedema", "familial mediterranean fever",
   "moyamoya disease", "takayasu arteritis", "polyarteritis nodosa",
   "giant cell arteritis", "granulomatosis with polyangiitis",
   "anti-glomerular basement membrane disease", "cryoglobulinemia",
   "lymphangioleiomyomatosis", "tuberous sclerosis",
   "sturge-weber syndrome", "von hippel-lindau", "neurofibromatosis",
   "pseudoxanthoma elasticum", "blue rubber bleb nevus syndrome"]

/-- `LocalModelAdapter._get_condition_commonality`. -/
def get_condition_commonality (diagnosis : String) : ℚ :=
  let dl := pyLower diagnosis
  if commonConditions.any (fun c => strContains dl c) then 4/5
  else if rareConditions.any (fun r => strContains dl r) then 2/5
  else 3/5

/-- `vague_terms` of `_assess_diagnosis_quality` (verbatim, including the
capitalised entries the source never lower-cases). -/
def vagueTerms : List String :=
  ["possible", "maybe", "could be", "might be", "uncertain", "unclear",
   "I think", "I feel", "probably", "possibly"]

/-- `confident_terms` of `_assess_diagnosis_quality`. -/
def confidentTerms : List String :=
  ["definitely", "certain", "verified", "confirmed", "definitive", "classic",
   "typical", "characteristic", "observed"]

/-- `LocalModelAdapter._assess_diagnosis_quality`. -/
def assess_diagnosis_quality (diagnosis : String) : ℚ :=
  let dl := pyLower diagnosis
  let has_vague := vagueTerms.any (fun t => strContains dl t)
  let has_confident := confidentTerms.any (fun t => strContains dl t)
  let score : ℚ := 7/10 - (if has_vague then 1/5 else 0) +
    (if has_confident then 3/20 else 0)
  max (3/10) (min 1 score)

/-- `LocalModelAdapter._calculate_enhanced_confidence` (0.95 = 19/20,
0.85 = 17/20, clamp to [0.25, 0.92] = [1/4, 23/25]).  `total_diagnoses` is
accepted but unused, as in the source. -/
def calculate_enhanced_confidence (diagnosis_text : String) (position : Nat)
    (temperature : ℚ) (total_diagnoses : Nat) (symptoms : String) : ℚ :=
  let position_factor : ℚ := (19/20 : ℚ) ^ position
  let temp_factor : ℚ := max (3/5) (1 - temperature * (3/2))
  let specificity_score := calculate_diagnosis_specificity diagnosis_text
  let alignment_score := calculate_symptom_alignment diagnosis_text symptoms
  let commonality_score := get_condition_commonality diagnosis_text
  let quality_score := assess_diagnosis_quality diagnosis_text
  let base_confidence : ℚ :=
    position_factor * (1/4) + temp_factor * (1/5) + specificity_score * (1/5) +
    alignment_score * (3/20) + commonality_score * (1/10) +
    quality_score * (1/10)
  let decayed : ℚ :=
    if 2 ≤ position then base_confidence * (17/20 : ℚ) ^ (position - 1)
    else base_confidence
  max (1/4) (min (23/25) decayed)

/-! ## Diagnosis parser
`parse_diagnosis_details` (src/backend/nodes/llm_diagnosis_node.py) embeds
the scan of `finditer` with the pattern
`-\s*Diagnosis:\s*(.*?)\s*-\s*Confidence:\s*([0-9.]+)\s*`
(IGNORECASE | DOTALL) followed by `float()` conversion and a stable
descending sort on the confidence. -/

/-- One parsed candidate (`TextualSymptomAnalysisResult` in
src/backend/schemas): a label and an optional confidence, where `none`
models Python `None`. -/
structure TextualSymptomAnalysisResult where
  text_diagnosis : String
  diagnosis_confidence : Option ℚ
  deriving Repr, DecidableEq

/-- The `[0-9.]` character class. -/
def isDigitDot (c : Char) : Bool := c.isDigit || c = '.'

/-- Decimal value of a digit run. -/
def digitsToNat (ds : List Char) : Nat :=
  ds.foldl (fun acc c => acc * 10 + (c.toNat - '0'.toNat)) 0

/-- Python `float()` on a string drawn from `[0-9.]+`: defined when the
string has at least one digit and at most one dot, undefined (`ValueError`)
otherwise. -/
def pyFloatOfDigits (s : String) : Option ℚ :=
  let cs := s.data
  let dots := cs.count '.'
  if dots = 0 then
    if cs = [] then none else some ((digitsToNat cs : ℚ))
  else if dots = 1 then
    let intPart := cs.takeWhile (fun c => c ≠ '.')
    let fracPart := (cs.dropWhile (fun c => c ≠ '.')).tail
    if intPart = [] ∧ fracPart = [] then none
    else some ((digitsToNat intPart : ℚ) +
      (digitsToNat fracPart : ℚ) / ((10 : ℚ) ^ fracPart.length))
  else none

/-- Drop leading regex whitespace (`\s*`). -/
def dropWs (s : List Char) : List Char := s.dropWhile pyIsSpace

/-- Case-insensitive literal match (needle given lower-case); returns the
rest of the input on success. -/
def matchLitCI : List Char → List Char → Option (List Char)
  | [], s => some s
  | _ :: _, [] => none
  | c :: lt, d :: st => if pyLowerChar d = c then matchLitCI lt st else none

/-- Match `\s*-\s*Confidence:\s*([0-9.]+)\s*` at the start of the input;
on success return the digit run and the rest after the trailing `\s*`. -/
def tryConfTail (s : List Char) : Option (String × List Char) :=
  match dropWs s with
  | '-' :: s2 =>
    match matchLitCI "confidence:".data (dropWs s2) with
    | some s4 =>
      let s5 := dropWs s4
      let ds := s5.takeWhile isDigitDot
      if ds.isEmpty then none
      else some (String.mk ds, dropWs (s5.dropWhile isDigitDot))
    | none => none
  | _ => none

/-- The lazy group `(.*?)`: grow the capture one character at a time until
the confidence tail matches; returns (capture, digit run, rest). -/
def findConf : List Char → List Char → Option (List Char × String × List Char)
  | acc, [] =>
    match tryConfTail [] with
    | some (ds, rest) => some (acc.reverse, ds, rest)
    | none => none
  | acc, c :: t =>
    match tryConfTail (c :: t) with
    | some (ds, rest) => some (acc.reverse, ds, rest)
    | none => findConf (c :: acc) t

/-- Try to match one whole `- Diagnosis: ... - Confidence: <digits>` block
at the start of the input. -/
def tryDiagAt (s : List Char) : Option (String × String × List Char) :=
  match s with
  | '-' :: s2 =>
    match matchLitCI "diagnosis:".data (dropWs s2) with
    | some s4 =>
      match findConf [] (dropWs s4) with
      | some (cap, ds, rest) => some (String.mk cap, ds, rest)
      | none => none
    | none => none
  | _ => none

/-- `finditer` scan: try a match at every position, resuming after each
match; `fuel` bounds the recursion and `input.length + 1` always suffices
because every step consumes at least one character. -/
def scanDiagAux : Nat → List Char → List (String × String)
  | _, [] => []
  | 0, _ :: _ => []
  | fuel + 1, c :: t =>
    match tryDiagAt (c :: t) with
    | some (cap, ds, rest) => (cap, ds) :: scanDiagAux fuel rest
    | none => scanDiagAux fuel t

/-- Build the result records, converting each confidence with `float()`
(`none` when a conversion raises `ValueError`). -/
def convResults : List (String × String) → Option (List TextualSymptomAnalysisResult)
  | [] => some []
  | (d, c) :: rest =>
    match pyFloatOfDigits (pyStrip c) with
    | none => none
    | some q =>
      (convResults rest).map
        (fun rs => { text_diagnosis := pyStrip d, diagnosis_confidence := some q } :: rs)

/-- Stable insertion for the descending sort on `diagnosis_confidence`
(`results.sort(key=..., reverse=True)`). -/
def insertDescBy (x : TextualSymptomAnalysisResult) :
    List TextualSymptomAnalysisResult → List TextualSymptomAnalysisResult
  | [] => [x]
  | y :: ys =>
    if x.diagnosis_confidence.getD 0 < y.diagnosis_confidence.getD 0 then
      y :: insertDescBy x ys
    else x :: y :: ys

def sortByConfDesc : List TextualSymptomAnalysisResult → List TextualSymptomAnalysisResult
  | [] => []
  | x :: xs => insertDescBy x (sortByConfDesc xs)

/-- `parse_diagnosis_details`: scan, convert, sort descending; `none`
models the `ValueError` a malformed float raises past the caller. -/
def parse_diagnosis_details (raw_response : String) :
    Option (List TextualSymptomAnalysisResult) :=
  (convResults (scanDiagAux (raw_response.data.length + 1) raw_response.data)).map
    sortByConfDesc

/-- The mean of the stored confidences of a candidate list
(`sum(confidence_scores) / len(confidence_scores)`). -/
def meanConfidence (l : List TextualSymptomAnalysisResult) : ℚ :=
  ((l.map (fun d => d.diagnosis_confidence.getD 0)).sum) / (l.length : ℚ)

/-! ## Session state
The shared LangGraph/FastAPI state dict (`AgentState`), restricted to the
fields the embedded code reads or writes.  Python's distinction between an
absent key and a present default value is collapsed wherever the source only
reads the key through `get` with that default; `average_confidence` keeps an
`Option` because `WorkflowStateManager` tests key presence (`not in state`)
explicitly, and an `Option` field value `none` models a stored Python
`None`. -/

structure LesionAnalysis where
  image_diagnosis : String
  confidence_score : List (String × ℚ)
  deriving Repr, DecidableEq

/-- The `overall_analysis` record produced by `OverallAnalysisNode`
(`final_confidence` is `Option` because `_create_fallback_analysis` copies a
possibly-`None` stored confidence into it). -/
structure OverallAnalysis where
  final_diagnosis : String
  final_confidence : Option ℚ
  final_severity : String
  user_explanation : String
  clinical_reasoning : String
  specialist_recommendation : String
  deriving Repr, DecidableEq

structure AgentState where
  latest_user_message : String := ""
  userInput_symptoms : String := ""
  userInput_skin_symptoms : String := ""
  requires_skin_cancer_screening : Bool := false
  textual_analysis : List TextualSymptomAnalysisResult := []
  average_confidence : Option ℚ := none
  image_required : Bool := false
  workflow_path : List String := []
  current_workflow_stage : String := ""
  followup_response : List (String × String) := []
  requires_user_input : Bool := true
  followup_type : String := "standard"
  followup_questions : List String := []
  followup_responses : List (String × String) := []
  followup_qna_overall : String := ""
  skin_cancer_risk_metrics : Option RiskMetrics := none
  skin_cancer_risk_detected : Bool := false
  skin_cancer_screening_responses : String := ""
  followup_diagnosis : List TextualSymptomAnalysisResult := []
  image_input : Option String := none
  skin_lesion_analysis : Option LesionAnalysis := none
  overall_analysis : Option OverallAnalysis := none
  deriving Repr, DecidableEq

/-! ## Initial diagnosis node
`LLMDiagnosisNode` (src/backend/nodes/llm_diagnosis_node.py).  The outcome of
the text-generation collaborator is passed as a `gen : Except String String`
parameter (`.error` = the call raised). -/

/-- `skin_cancer_keywords` of `LLMDiagnosisNode.diagnose`. -/
def skin_cancer_keywords : List String :=
  ["mole", "lesion", "growth", "bump", "spot", "rash", "patch", "scab",
   "discoloration", "freckle", "birthmark", "wart", "cyst", "lump",
   "melanoma", "cancer", "tumor", "nevus", "seborrheic", "keratosis"]

/-- `general_skin_keywords` of `LLMDiagnosisNode.diagnose`. -/
def general_skin_keywords : List String :=
  ["skin", "dermatitis", "eczema", "psoriasis", "acne", "hives",
   "rosacea", "fungal", "bacterial", "viral", "infection"]

/-- The pre-filter of `diagnose`: any skin-cancer or general skin keyword
occurs in the lower-cased symptom text. -/
def hasSkinIndicators (text : String) : Bool :=
  skin_cancer_keywords.any (fun k => strContains (pyLower text) k) ||
    general_skin_keywords.any (fun k => strContains (pyLower text) k)

/-- The placeholder installed for lesion-related text (confidence `None`). -/
def placeholderSkinDiagnosis : TextualSymptomAnalysisResult :=
  { text_diagnosis := "Possible Skin Cancer Condition (Further Evaluation Required)",
    diagnosis_confidence := none }

/-- `LLMDiagnosisNode.diagnose`: lesion-related text short-circuits the model
call (the result does not touch `gen`); general text generates, parses and
stores candidates. -/
def diagnose (st : AgentState) (gen : Except String String) : Option AgentState :=
  let text := st.latest_user_message
  if hasSkinIndicators text then
    some { st with
      userInput_skin_symptoms := text,
      requires_skin_cancer_screening := true,
      textual_analysis := [placeholderSkinDiagnosis],
      average_confidence := some 0 }
  else
    match gen with
    | .error _ => none
    | .ok output =>
      match parse_diagnosis_details output with
      | none => none
      | some parsed =>
        some { st with
          userInput_symptoms := text,
          requires_skin_cancer_screening := false,
          textual_analysis := parsed,
          image_required := false }

/-- `LLMDiagnosisNode.__call__`: set the stage, diagnose, then set
`workflow_path` wholesale from `image_required`. -/
def llmDiagnosisNode (st : AgentState) (gen : Except String String) :
    Option AgentState :=
  (diagnose { st with current_workflow_stage := "textual_analysis" } gen).map
    (fun st1 =>
      { st1 with workflow_path :=
          if st1.image_required then ["textual_to_image"] else ["textual_only"] })

/-! ## Follow-up interaction node
`FollowUpInteractionNode` (src/backend/nodes/follow_up_interaction_node.py). -/

/-- `_get_universal_medical_questions`. -/
def universal_medical_questions : List String :=
  ["How long have you been experiencing these symptoms? (hours, days, weeks, months)",
   "Have your symptoms gotten worse, better, or stayed the same since they started?",
   "On a scale of 0–10, what is your current pain level? (0 = no pain, 10 = worst pain imaginable)",
   "Do you have any other symptoms that you haven\x27t mentioned yet?",
   "Are you currently taking any medications, supplements, or have any known allergies?"]

/-- `_get_skin_cancer_screening_questions` (ABCDE + adjunct). -/
def skin_cancer_screening_questions : List String :=
  ["Is the mole or lesion asymmetrical? (One half doesn\x27t match the other)",
   "Does the border of the mole or lesion appear irregular, ragged, or blurred?",
   "Does it contain more than one color (e.g., black, brown, red)?",
   "Is the diameter of the mole or lesion larger than 6mm (about the size of a pencil eraser)?",
   "Has the mole or lesion changed in size, shape, or color over time?",
   "Does it bleed, itch, or cause pain?",
   "Do you have a personal or family history of skin cancer or high sun exposure?"]

/-- `_combine_symptoms_and_responses`. -/
def combine_symptoms_and_responses (original : String)
    (responses : List (String × String)) : String :=
  pyStrip (responses.foldl
    (fun acc p => acc ++ "Q: " ++ p.1 ++ "\n" ++ "A: " ++ p.2 ++ "\n\n")
    ("Initial user symptom input: " ++ original ++ "\n\n" ++
      "Follow-up information:\n"))

/-- `_generate_questions_phase`. -/
def generate_questions_phase (st : AgentState) : AgentState :=
  if st.requires_skin_cancer_screening then
    { st with
      followup_questions := skin_cancer_screening_questions,
      followup_type := "skin_cancer_screening",
      current_workflow_stage := "awaiting_followup_responses" }
  else
    { st with
      followup_questions := universal_medical_questions,
      followup_type := "standard",
      current_workflow_stage := "awaiting_followup_responses" }

/-- `_process_responses_phase`.  In the standard branch an empty parse leaves
Python's `confidence_scores` unbound (`NameError`), modelled as `none`; a
collaborator failure or a float `ValueError` likewise. -/
def process_responses_phase (st : AgentState)
    (responses : List (String × String)) (gen : Except String String) :
    Option AgentState :=
  let original :=
    if st.userInput_symptoms ≠ "" then st.userInput_symptoms
    else st.userInput_skin_symptoms
  let enhanced := combine_symptoms_and_responses original responses
  let st1 := { st with
    followup_responses := responses,
    followup_qna_overall := enhanced }
  if st1.followup_type = "skin_cancer_screening" then
    let res := analyze_skin_cancer_risk responses
    let st2 := { st1 with skin_cancer_risk_metrics := some res.2 }
    if res.1 then
      some { st2 with
        image_required := true,
        skin_cancer_risk_detected := true,
        current_workflow_stage := "awaiting_image_upload",
        followup_diagnosis :=
          [{ text_diagnosis := "Skin Cancer Risk Detected - Image Analysis Required",
             diagnosis_confidence := none }] }
    else
      some { st2 with
        followup_type := "standard",
        requires_skin_cancer_screening := false,
        skin_cancer_risk_detected := false,
        image_required := false,
        skin_cancer_screening_responses := enhanced,
        requires_user_input := true,
        followup_questions := universal_medical_questions,
        followup_response := [],
        followup_diagnosis := [] }
  else
    let st2 := { st1 with
      image_required := false,
      skin_cancer_risk_detected := false,
      requires_user_input := false }
    match gen with
    | .error _ => none
    | .ok output =>
      match parse_diagnosis_details output with
      | none => none
      | some results =>
        if results.isEmpty then none
        else
          some { st2 with
            followup_diagnosis := results,
            average_confidence := some (meanConfidence results) }

/-- `FollowUpInteractionNode.handle_followup_interaction`: dispatch between
the two phases and set the stage from the processing result; the uncovered
dispatch case returns Python `None`, modelled as `none`. -/
def handle_followup_interaction (st : AgentState) (gen : Except String String) :
    Option AgentState :=
  if st.followup_response.isEmpty ∧ st.requires_user_input then
    some (generate_questions_phase st)
  else if ¬st.followup_response.isEmpty ∧ ¬st.requires_user_input then
    (process_responses_phase st st.followup_response gen).map (fun r =>
      if r.image_required then
        { r with current_workflow_stage := "awaiting_image_upload" }
      else if r.requires_user_input then
        { r with current_workflow_stage := "awaiting_followup_responses" }
      else { r with current_workflow_stage := "followup_analysis_complete" })
  else none

/-- One caller round-trip of the follow-up stage: the
`/patient/followup_questions` endpoint stores the optional responses and the
`requires_user_input` flag, then invokes the node
(src/backend/api/diagnosis_routes.py, `run_followup_questions`). -/
def followupSessionStep (st : AgentState) (resp : List (String × String))
    (gen : Except String String) : Option AgentState :=
  let st1 :=
    if resp.isEmpty then { st with requires_user_input := true }
    else { st with followup_response := resp, requires_user_input := false }
  handle_followup_interaction st1 gen

/-- Number of lesion-screening → generic transitions along a sequence of
follow-up round-trips (a transition is a step whose source state has the
screening question set and whose result has the generic one). -/
def screeningSwitchCount :
    AgentState → List (List (String × String) × Except String String) → Nat
  | _, [] => 0
  | st, (resp, gen) :: rest =>
    match followupSessionStep st resp gen with
    | none => 0
    | some st' =>
      (if st.followup_type = "skin_cancer_screening" ∧
          st'.followup_type = "standard" then 1 else 0)
        + screeningSwitchCount st' rest

/-! ## Workflow state manager
`WorkflowStateManager` (src/backend/managers/workflow_state_manager.py). -/

/-- The navigation record returned by
`update_workflow_stage_and_determine_next`.  Keys the Python dict omits in a
given branch (e.g. `confidence_score` in the report branch) are filled with
neutral defaults; no claim reads them. -/
structure WorkflowDirective where
  current_stage : String
  next_endpoint : Option String
  needs_user_input : Option String
  next_step_description : String
  workflow_complete : Bool
  show_next_button : Bool
  confidence_score : ℚ
  image_required : Bool
  deriving Repr, DecidableEq

/-- `WorkflowStateManager.calculate_average_confidence`: `none` models the
`NameError` on an empty candidate list (`confidence_scores` unbound) and the
`TypeError` when a stored confidence is `None` (`sum` over `None`). -/
def calculate_average_confidence (st : AgentState) : Option ℚ :=
  if st.textual_analysis.isEmpty then none
  else if st.textual_analysis.any (fun d => d.diagnosis_confidence.isNone) then
    none
  else some (meanConfidence st.textual_analysis)

/-- `WorkflowStateManager.update_workflow_stage_and_determine_next`:
mutates the state (stage, `average_confidence`, `workflow_path`) and returns
the navigation directive; `none` models an exception while computing the
average. -/
def update_workflow_stage_and_determine_next (st : AgentState)
    (completed_node : String) : Option (AgentState × WorkflowDirective) :=
  if completed_node = "textual_analysis" then
    let st1 := { st with current_workflow_stage := "textual_analysis_complete" }
    let stAvg :=
      match st1.average_confidence with
      | some _ => some st1
      | none => (calculate_average_confidence st1).map
          (fun q => { st1 with average_confidence := some q })
    match stAvg with
    | none => none
    | some st2 =>
      let avg := st2.average_confidence.getD 1
      if st2.requires_skin_cancer_screening then
        some ({ st2 with workflow_path := ["textual_to_skin_screening"] },
          { current_stage := "textual_analysis_complete",
            next_endpoint := some "/patient/followup_questions",
            needs_user_input := some "followup_questions",
            next_step_description := "Skin cancer screening questions needed",
            workflow_complete := false, show_next_button := true,
            confidence_score := avg, image_required := st2.image_required })
      else if avg < 3/4 then
        some ({ st2 with workflow_path := ["textual_to_followup", "followup_only"] },
          { current_stage := "textual_analysis_complete",
            next_endpoint := some "/patient/followup_questions",
            needs_user_input := some "followup_questions",
            next_step_description := "Follow-up questions needed to improve accuracy",
            workflow_complete := false, show_next_button := true,
            confidence_score := avg, image_required := st2.image_required })
      else
        some (st2,
          { current_stage := "textual_analysis_complete",
            next_endpoint := some "/patient/overall_analysis",
            needs_user_input := none,
            next_step_description := "Ready for comprehensive analysis",
            workflow_complete := false, show_next_button := true,
            confidence_score := avg, image_required := st2.image_required })
  else if completed_node = "followup_interaction" then
    if st.requires_user_input ∧ st.followup_type = "standard" ∧
        "textual_to_skin_screening" ∈ st.workflow_path then
      some ({ st with workflow_path :=
              ["textual_to_skin_screening", "skin_to_standard_followup"] },
        { current_stage := "awaiting_followup_responses",
          next_endpoint := some "/patient/followup_questions",
          needs_user_input := some "followup_questions",
          next_step_description :=
            "Standard follow-up questions for skin condition analysis",
          workflow_complete := false, show_next_button := true,
          confidence_score := st.average_confidence.getD (1/2),
          image_required := false })
    else if st.image_required then
      some ({ st with workflow_path :=
              ["textual_to_skin_screening", "skin_to_image_analysis"] },
        { current_stage := "followup_analysis_complete",
          next_endpoint := some "/patient/image_analysis",
          needs_user_input := some "image_upload",
          next_step_description :=
            "Medical image upload required for enhanced diagnosis",
          workflow_complete := false, show_next_button := true,
          confidence_score := st.average_confidence.getD (1/2),
          image_required := st.image_required })
    else
      some (st,
        { current_stage := "followup_analysis_complete",
          next_endpoint := some "/patient/overall_analysis",
          needs_user_input := none,
          next_step_description :=
            "Ready for comprehensive analysis with follow-up data",
          workflow_complete := false, show_next_button := true,
          confidence_score := st.average_confidence.getD (1/2),
          image_required := st.image_required })
  else if completed_node = "image_analysis" then
    some (st,
      { current_stage := "image_analysis_complete",
        next_endpoint := some "/patient/overall_analysis",
        needs_user_input := none,
        next_step_description := "Ready for comprehensive analysis with image data",
        workflow_complete := false, show_next_button := true,
        confidence_score := st.average_confidence.getD (7/10),
        image_required := false })
  else if completed_node = "overall_analysis" then
    some (st,
      { current_stage := "overall_analysis_complete",
        next_endpoint := some "/patient/medical_report",
        needs_user_input := none,
        next_step_description := "Generating comprehensive medical report",
        workflow_complete := false, show_next_button := true,
        confidence_score :=
          ((st.overall_analysis.bind (fun a => a.final_confidence)).getD 0),
        image_required := false })
  else if completed_node = "generate_report" ∨ completed_node = "medical_report" then
    some (st,
      { current_stage := "workflow_complete",
        next_endpoint := none, needs_user_input := none,
        next_step_description := "Medical analysis workflow complete",
        workflow_complete := true, show_next_button := false,
        confidence_score := 0, image_required := false })
  else
    some (st,
      { current_stage := st.current_workflow_stage,
        next_endpoint := none, needs_user_input := none,
        next_step_description := "Unknown stage: " ++ completed_node,
        workflow_complete := false, show_next_button := false,
        confidence_score := 0, image_required := false })

/-! ## LangGraph routers (src/backend/graphs/patient_workflow.py) -/

/-- `route_after_llm_diagnosis`: recomputes the average confidence (with
threshold 0.6), resets `workflow_path`, and returns the next node; `none`
models the `TypeError` of `sum` over a stored `None` confidence. -/
def route_after_llm_diagnosis (st : AgentState) :
    Option (AgentState × String) :=
  let avgOutcome : Option ℚ :=
    if st.textual_analysis.isEmpty then some 0
    else if st.textual_analysis.any (fun d => d.diagnosis_confidence.isNone) then
      none
    else some (meanConfidence st.textual_analysis)
  match avgOutcome with
  | none => none
  | some avg =>
    let st1 := { st with average_confidence := some avg, workflow_path := [] }
    if avg < 3/5 then
      some ({ st1 with workflow_path := ["textual_to_followup"] },
        "followup_interaction")
    else if st1.image_required then
      some ({ st1 with workflow_path := ["textual_to_image"] }, "image_analysis")
    else
      some ({ st1 with workflow_path := ["textual_only"] }, "overall_analysis_step")

/-- `route_after_followup_interaction`: pause/reprocess branches leave the
path alone; the two routing branches append a tag at the end. -/
def route_after_followup_interaction (st : AgentState) : AgentState × String :=
  if st.requires_user_input ∧ st.followup_response.isEmpty then (st, "END")
  else if ¬st.followup_response.isEmpty ∧ st.requires_user_input then
    (st, "followup_interaction")
  else if st.image_required then
    ({ st with workflow_path := st.workflow_path ++ ["followup_to_image"] },
      "image_analysis")
  else
    ({ st with workflow_path := st.workflow_path ++ ["followup_only"] },
      "overall_analysis_step")

/-! ## Image classification node
`ImageClassificationNode` (src/backend/nodes/image_classification_node.py).
The decode + adapter classification is passed as an
`Except String (label × probability map)` outcome (`.error` = the base64 /
PIL decode or the adapter inference raised). -/

def classify_skinLesion (st : AgentState)
    (classifyOutcome : Except String (String × List (String × ℚ))) :
    AgentState :=
  match st.image_input with
  | none =>
    let la : LesionAnalysis :=
      { image_diagnosis := "No image provided", confidence_score := [] }
    { st with skin_lesion_analysis := some la }
  | some _ =>
    match classifyOutcome with
    | .ok res =>
      let la : LesionAnalysis :=
        { image_diagnosis := res.1, confidence_score := res.2 }
      { st with skin_lesion_analysis := some la }
    | .error e =>
      let la : LesionAnalysis :=
        { image_diagnosis := "Error analyzing image: " ++ e,
          confidence_score := [] }
      { st with
        skin_lesion_analysis := some la,
        current_workflow_stage := "image_analysis_error" }

/-- `ImageClassificationNode.__call__` (the final stage assignment overwrites
the error stage set by `classify_skinLesion`, as in the source). -/
def imageClassificationNode (st : AgentState)
    (classifyOutcome : Except String (String × List (String × ℚ))) :
    AgentState :=
  let st1 := classify_skinLesion
    { st with current_workflow_stage := "analyzing_image" } classifyOutcome
  { st1 with current_workflow_stage := "image_analysis_complete" }

/-! ## Overall analysis node
`OverallAnalysisNode` (src/backend/nodes/overall_analysis_node.py). -/

/-- `OverallAnalysisNode._create_fallback_analysis`. -/
def create_fallback_analysis (st : AgentState) (error_msg : String) :
    OverallAnalysis :=
  let primary : TextualSymptomAnalysisResult :=
    match st.followup_diagnosis with
    | p :: _ => p
    | [] =>
      match st.textual_analysis with
      | p :: _ => p
      | [] => { text_diagnosis := "Unknown", diagnosis_confidence := some 0 }
  { final_diagnosis := primary.text_diagnosis,
    final_confidence := primary.diagnosis_confidence,
    final_severity := "unknown",
    user_explanation := "We\x27ve analyzed your symptoms but encountered a technical issue. Please consult with a healthcare professional for proper evaluation.",
    clinical_reasoning := "Analysis incomplete due to technical error: " ++
      error_msg ++ ". Diagnosis based on preliminary symptom assessment.",
    specialist_recommendation := "general_practitioner" }

/-- `OverallAnalysisNode.perform_overall_analysis`.  The whole `try` block
writes no state field except the final `state["overall_analysis"]`
assignment, so its outcome — the record built from the collaborator calls and
the tolerant parsing, or the message of whatever exception escaped — enters
as `body`; the `except` arm substitutes the fallback record. -/
def perform_overall_analysis (st : AgentState)
    (body : Except String OverallAnalysis) : AgentState :=
  match body with
  | .ok a => { st with overall_analysis := some a }
  | .error e =>
    { st with overall_analysis := some (create_fallback_analysis st e) }

/-- `OverallAnalysisNode.__call__`. -/
def overallAnalysisNode (st : AgentState)
    (body : Except String OverallAnalysis) : AgentState :=
  let st1 := perform_overall_analysis
    { st with current_workflow_stage := "performing_overall_analysis" } body
  { st1 with current_workflow_stage := "overall_analysis_complete" }

/-- Concrete post-diagnosis session used by the C2 witness. -/
def c2WitnessState : AgentState :=
  { latest_user_message := "persistent headache and nausea for two days",
    userInput_symptoms := "persistent headache and nausea for two days",
    requires_skin_cancer_screening := false,
    textual_analysis :=
      [{ text_diagnosis := "Migraine", diagnosis_confidence := some 1 }],
    image_required := false,
    workflow_path := ["textual_only"],
    current_workflow_stage := "textual_analysis" }

/-! ## General lemmas -/

lemma specificity_nonneg (d : String) : 0 ≤ calculate_diagnosis_specificity d := by
  unfold calculate_diagnosis_specificity
  have h1 : 0 ≤ min (3/10 : ℚ) (((pyWords d).length : ℚ) * (1/20)) :=
    le_min (by norm_num) (by positivity)
  refine le_min (by norm_num) ?_
  have h2 : (0:ℚ) ≤ (if medicalTerms.any
      (fun t => strContains (pyLower d) (pyLower t)) then (3/20 : ℚ) else 0) := by
    split <;> norm_num
  have h3 : (0:ℚ) ≤ (if specificityIndicators.any
      (fun i => strContains (pyLower d) (pyLower i)) then (1/10 : ℚ) else 0) := by
    split <;> norm_num
  linarith

lemma alignment_nonneg (d s : String) : 0 ≤ calculate_symptom_alignment d s := by
  unfold calculate_symptom_alignment
  split
  · norm_num
  · refine le_min (by norm_num) ?_
    have h1 : (0:ℚ) ≤ (((pyWords (pyLower s)).filter
        (fun sw => (pyWords (pyLower d)).any (fun dw => strContains dw sw))).length : ℚ) := by
      positivity
    have h2 : (0:ℚ) ≤ ((alignmentKeywords.filter
        (fun p => strContains (pyLower s) p.1 &&
          p.2.any (fun t => strContains (pyLower d) t))).length : ℚ) := by
      positivity
    linarith

lemma commonality_nonneg (d : String) : 0 ≤ get_condition_commonality d := by
  simp only [get_condition_commonality]
  split
  · norm_num
  · split <;> norm_num

lemma quality_nonneg (d : String) : 0 ≤ assess_diagnosis_quality d := by
  unfold assess_diagnosis_quality
  exact le_trans (by norm_num) (le_max_left _ _)

lemma temp_factor_nonneg (t : ℚ) : 0 ≤ max (3/5 : ℚ) (1 - t * (3/2)) :=
  le_trans (by norm_num) (le_max_left _ _)

lemma mem_insertDescBy (x c : TextualSymptomAnalysisResult)
    (l : List TextualSymptomAnalysisResult) :
    c ∈ insertDescBy x l ↔ c = x ∨ c ∈ l := by
  induction l with
  | nil => simp [insertDescBy]
  | cons y ys ih =>
    simp only [insertDescBy]
    split <;> simp only [List.mem_cons, ih] <;> tauto

lemma mem_sortByConfDesc (c : TextualSymptomAnalysisResult)
    (l : List TextualSymptomAnalysisResult) :
    c ∈ sortByConfDesc l ↔ c ∈ l := by
  induction l with
  | nil => simp [sortByConfDesc]
  | cons x xs ih =>
    simp only [sortByConfDesc, mem_insertDescBy, ih, List.mem_cons]

lemma convResults_all_some (pairs : List (String × String))
    (l : List TextualSymptomAnalysisResult)
    (h : convResults pairs = some l) :
    ∀ c ∈ l, c.diagnosis_confidence.isSome := by
  induction pairs generalizing l with
  | nil =>
    simp only [convResults, Option.some_inj] at h
    subst h
    simp
  | cons p rest ih =>
    obtain ⟨d, cs⟩ := p
    simp only [convResults] at h
    rcases hq : pyFloatOfDigits (pyStrip cs) with _ | q
    · rw [hq] at h; exact absurd h (by simp)
    · rw [hq] at h
      rcases hr : convResults rest with _ | rs
      · rw [hr] at h; exact absurd h (by simp)
      · rw [hr] at h
        have h2 : ({ text_diagnosis := pyStrip d, diagnosis_confidence := some q } :
            TextualSymptomAnalysisResult) :: rs = l := by
          simpa using h
        subst h2
        intro c hc
        rcases List.mem_cons.mp hc with h1 | h2
        · subst h1; rfl
        · exact ih rs hr c h2

lemma parse_confidences_set (s : String) (l : List TextualSymptomAnalysisResult)
    (h : parse_diagnosis_details s = some l) :
    ∀ c ∈ l, c.diagnosis_confidence.isSome := by
  unfold parse_diagnosis_details at h
  rcases hr : convResults (scanDiagAux (s.data.length + 1) s.data) with _ | rs
  · rw [hr] at h; exact absurd h (by simp)
  · rw [hr] at h
    have h2 : sortByConfDesc rs = l := by simpa using h
    subst h2
    intro c hc
    exact convResults_all_some _ rs hr c ((mem_sortByConfDesc c rs).mp hc)

lemma llmNode_nonscreening (st : AgentState) (gen : Except String String)
    (st1 : AgentState) (h : llmDiagnosisNode st gen = some st1)
    (hscr : st1.requires_skin_cancer_screening = false) :
    ∃ out parsed, gen = Except.ok out ∧
      parse_diagnosis_details out = some parsed ∧
      st1.textual_analysis = parsed ∧ st1.image_required = false ∧
      st1.average_confidence = st.average_confidence ∧
      st1.workflow_path = ["textual_only"] := by
  by_cases hskin : hasSkinIndicators st.latest_user_message
  · have h' := h
    simp [llmDiagnosisNode, diagnose, hskin] at h'
    subst h'
    simp at hscr
  · rcases gen with e | out
    · have h' := h
      simp [llmDiagnosisNode, diagnose, hskin] at h'
    · rcases hp : parse_diagnosis_details out with _ | parsed
      · have h' := h
        simp [llmDiagnosisNode, diagnose, hskin, hp] at h'
      · have h' := h
        simp [llmDiagnosisNode, diagnose, hskin, hp] at h'
        subst h'
        exact ⟨out, parsed, rfl, hp, rfl, rfl, rfl, rfl⟩

lemma isNone_any_false (l : List TextualSymptomAnalysisResult)
    (hall : ∀ c ∈ l, c.diagnosis_confidence.isSome) :
    l.any (fun d => d.diagnosis_confidence.isNone) = false := by
  rw [List.any_eq_false]
  intro d hd
  have := hall d hd
  rcases hc : d.diagnosis_confidence with _ | q
  · rw [hc] at this; simp at this
  · simp [hc]

lemma manager_textual_nonscreening (st1 : AgentState)
    (hscr : st1.requires_skin_cancer_screening = false)
    (havg : st1.average_confidence = none)
    (hne : st1.textual_analysis ≠ [])
    (hall : ∀ c ∈ st1.textual_analysis, c.diagnosis_confidence.isSome) :
    ∃ st2 d,
      update_workflow_stage_and_determine_next st1 "textual_analysis"
        = some (st2, d) ∧
      st2.average_confidence = some (meanConfidence st1.textual_analysis) ∧
      d.next_endpoint = (if meanConfidence st1.textual_analysis < 3/4
        then some "/patient/followup_questions"
        else some "/patient/overall_analysis") ∧
      (meanConfidence st1.textual_analysis < 3/4 →
        d.needs_user_input = some "followup_questions") ∧
      (¬ meanConfidence st1.textual_analysis < 3/4 →
        d.needs_user_input = none) ∧
      st2.requires_skin_cancer_screening = false := by
  have hany := isNone_any_false _ hall
  have hne' : st1.textual_analysis.isEmpty = false := by
    simpa [List.isEmpty_iff] using hne
  by_cases hlt : meanConfidence st1.textual_analysis < 3/4
  · simp [update_workflow_stage_and_determine_next, calculate_average_confidence,
      havg, hscr, hany, hne', hlt]
    exact ⟨_, _, ⟨rfl, rfl⟩, rfl, rfl, rfl, rfl⟩
  · simp [update_workflow_stage_and_determine_next, calculate_average_confidence,
      havg, hscr, hany, hne', hlt]
    exact ⟨_, _, ⟨rfl, rfl⟩, rfl, rfl, rfl, rfl⟩

lemma step_preserves_standard (st : AgentState) (r : List (String × String))
    (g : Except String String) (st' : AgentState)
    (ht : st.followup_type = "standard")
    (hf : st.requires_skin_cancer_screening = false)
    (h : followupSessionStep st r g = some st') :
    st'.followup_type = "standard" ∧
    st'.requires_skin_cancer_screening = false := by
  by_cases hre : r.isEmpty
  · by_cases hfr : st.followup_response.isEmpty
    · simp [followupSessionStep, handle_followup_interaction, hre, hfr,
        generate_questions_phase, hf] at h
      rw [← h]
      exact ⟨rfl, rfl⟩
    · simp [followupSessionStep, handle_followup_interaction, hre, hfr] at h
  · simp [followupSessionStep, handle_followup_interaction, hre,
      process_responses_phase, ht] at h
    rcases g with e | out
    · simp at h
    · simp only [] at h
      rcases hp : parse_diagnosis_details out with _ | results
      · simp [hp] at h
      · simp [hp] at h
        by_cases hemp : results = []
        · simp [hemp] at h
        · simp [hemp] at h
          rw [← h]
          exact ⟨rfl, hf⟩

lemma processScreeningNegative (st : AgentState) (r : List (String × String))
    (g : Except String String)
    (ht : st.followup_type = "skin_cancer_screening")
    (hr : ¬ r.isEmpty)
    (hneg : (analyze_skin_cancer_risk r).1 = false) :
    ∃ st', followupSessionStep st r g = some st' ∧
      st'.followup_type = "standard" ∧
      st'.requires_user_input = true ∧
      st'.current_workflow_stage = "awaiting_followup_responses" ∧
      st'.followup_questions = universal_medical_questions ∧
      st'.followup_response = [] ∧
      st'.followup_diagnosis = [] ∧
      st'.requires_skin_cancer_screening = false ∧
      st'.image_required = false ∧
      st'.skin_cancer_risk_metrics = some (analyze_skin_cancer_risk r).2 := by
  simp [followupSessionStep, handle_followup_interaction, hr,
    process_responses_phase, ht, hneg]

lemma switch_target_flag (st : AgentState) (r : List (String × String))
    (g : Except String String) (st' : AgentState)
    (h : followupSessionStep st r g = some st')
    (hts : st.followup_type = "skin_cancer_screening")
    (ht' : st'.followup_type = "standard") :
    st'.requires_skin_cancer_screening = false := by
  by_cases hre : r.isEmpty
  · by_cases hfr : st.followup_response.isEmpty
    · by_cases hsc : st.requires_skin_cancer_screening
      · simp [followupSessionStep, handle_followup_interaction, hre, hfr,
          generate_questions_phase, hsc] at h
        rw [← h] at ht'
        simp at ht'
      · simp [followupSessionStep, handle_followup_interaction, hre, hfr,
          generate_questions_phase, hsc] at h
        rw [← h]
    · simp [followupSessionStep, handle_followup_interaction, hre, hfr] at h
  · simp [followupSessionStep, handle_followup_interaction, hre,
      process_responses_phase, hts] at h
    by_cases hir : (analyze_skin_cancer_risk r).1
    · simp [hir] at h
      rw [← h] at ht'
      simp [hts] at ht'
    · simp [hir] at h
      rw [← h]

lemma count_zero_of_standard
    (inputs : List (List (String × String) × Except String String))
    (st : AgentState) (ht : st.followup_type = "standard")
    (hf : st.requires_skin_cancer_screening = false) :
    screeningSwitchCount st inputs = 0 := by
  induction inputs generalizing st with
  | nil => rfl
  | cons i rest ih =>
    obtain ⟨r, g⟩ := i
    rcases hs : followupSessionStep st r g with _ | st'
    · simp only [screeningSwitchCount, hs]
    · obtain ⟨ht', hf'⟩ := step_preserves_standard st r g st' ht hf hs
      have hind : (if st.followup_type = "skin_cancer_screening" ∧
          st'.followup_type = "standard" then 1 else 0) = 0 := by
        rw [if_neg]
        rintro ⟨h1, -⟩
        rw [ht] at h1
        exact absurd h1 (by decide)
      simp only [screeningSwitchCount, hs]
      rw [hind, ih st' ht' hf']

lemma screeningSwitchCount_le_one
    (inputs : List (List (String × String) × Except String String))
    (st : AgentState) :
    screeningSwitchCount st inputs ≤ 1 := by
  induction inputs generalizing st with
  | nil => exact Nat.zero_le 1
  | cons i rest ih =>
    obtain ⟨r, g⟩ := i
    rcases hs : followupSessionStep st r g with _ | st'
    · simp only [screeningSwitchCount, hs]
      exact Nat.zero_le 1
    · simp only [screeningSwitchCount, hs]
      by_cases hsw : st.followup_type = "skin_cancer_screening" ∧
          st'.followup_type = "standard"
      · rw [if_pos hsw]
        have hflag := switch_target_flag st r g st' hs hsw.1 hsw.2
        rw [count_zero_of_standard rest st' hsw.2 hflag]
      · rw [if_neg hsw, Nat.zero_add]
        exact ih st'

lemma respValue_yes : respValue "yes" = 1 := by decide

lemma respValue_no : respValue "no" = 0 := by decide

lemma skinWeights_ge7 (idx : Nat) (h : 7 ≤ idx) :
    skinWeights idx = ("OTHER", 0, true) := by
  match idx, h with
  | n + 7, _ => rfl

lemma riskDetailsAux_append (l1 l2 : List (String × String)) (idx : Nat) :
    riskDetailsAux idx (l1 ++ l2)
      = riskDetailsAux idx l1 ++ riskDetailsAux (idx + l1.length) l2 := by
  induction l1 generalizing idx with
  | nil => simp [riskDetailsAux]
  | cons p t ih =>
    obtain ⟨q, a⟩ := p
    simp [riskDetailsAux, ih (idx + 1)]
    congr 1
    omega

lemma riskDetailsAux_ge7 (l : List (String × String)) (idx : Nat) (h : 7 ≤ idx)
    (d : RiskDetail) (hd : d ∈ riskDetailsAux idx l) :
    d.weight = 0 ∧ d.adjunct = true ∧ d.contribution = 0 := by
  induction l generalizing idx with
  | nil => simp [riskDetailsAux] at hd
  | cons p t ih =>
    obtain ⟨q, a⟩ := p
    simp only [riskDetailsAux, List.mem_cons] at hd
    rcases hd with h1 | h2
    · subst h1
      simp [mkRiskDetail, skinWeights_ge7 idx h]
    · exact ih (idx + 1) (by omega) h2

lemma riskDetailsAux_weight_by_index (l : List (String × String)) (idx : Nat) :
    ∀ d ∈ riskDetailsAux idx l,
      d.weight = (skinWeights d.index).2.1 ∧
      d.adjunct = (skinWeights d.index).2.2 := by
  induction l generalizing idx with
  | nil => simp [riskDetailsAux]
  | cons p t ih =>
    obtain ⟨q, a⟩ := p
    intro d hd
    simp only [riskDetailsAux, List.mem_cons] at hd
    rcases hd with h1 | h2
    · subst h1; exact ⟨rfl, rfl⟩
    · exact ih (idx + 1) d h2

lemma foldl_core_skip (ds : List RiskDetail) (h : ∀ d ∈ ds, d.adjunct = true) :
    ∀ acc : ℚ,
      ds.foldl (fun acc d => if d.adjunct then acc else acc + d.contribution) acc
        = acc := by
  induction ds with
  | nil => intro acc; rfl
  | cons d t ih =>
    intro acc
    simp only [List.foldl_cons]
    rw [if_pos (h d (by simp))]
    exact ih (fun x hx => h x (by simp [hx])) acc

lemma foldl_adjunct_zero (ds : List RiskDetail)
    (h : ∀ d ∈ ds, d.contribution = 0) :
    ∀ acc : ℚ,
      ds.foldl (fun acc d => if d.adjunct then acc + d.contribution else acc) acc
        = acc := by
  induction ds with
  | nil => intro acc; rfl
  | cons d t ih =>
    intro acc
    simp only [List.foldl_cons]
    have hc := h d (by simp)
    have harm : (if d.adjunct then acc + d.contribution else acc) = acc := by
      rw [hc]; simp
    rw [harm]
    exact ih (fun x hx => h x (by simp [hx])) acc

lemma anyAdjunctYesOf_append_zero (ds1 ds2 : List RiskDetail)
    (h : ∀ d ∈ ds2, d.weight = 0) :
    anyAdjunctYesOf (ds1 ++ ds2) = anyAdjunctYesOf ds1 := by
  unfold anyAdjunctYesOf
  rw [List.any_append]
  have h2 : ds2.any (fun d => d.adjunct && d.value = 1 && decide (0 < d.weight))
      = false := by
    rw [List.any_eq_false]
    intro d hd
    simp [h d hd]
  rw [h2, Bool.or_false]

/-! ## Claim theorems -/

/-- C1: for every answer map to the seven lesion-screening questions,
`analyze_skin_cancer_risk` maps each answer through `respValue`
("yes" ↦ 1.0, "neutral" ↦ 0.5, else 0.0), weights the questions positionally
A:2, B:2, C:2, D:1, E:2 (core), Symptoms:1, History:1 (adjunct), and returns
tier high iff coreScore ≥ 6 or (coreScore ≥ 5 and some adjunct answer is
"yes"), moderate iff 4 ≤ coreScore ≤ 5 or (coreScore = 3 and some adjunct
"yes"), else low, with imageRecommended iff tier high or (tier moderate and
some adjunct "yes"); in particular yes,yes,yes,no,no,no,no gives coreScore 6,
tier high, imageRecommended true. -/
theorem C1_lesion_risk_assessment :
    (∀ q0 q1 q2 q3 q4 q5 q6 a0 a1 a2 a3 a4 a5 a6 : String,
      (analyze_skin_cancer_risk
        [(q0,a0),(q1,a1),(q2,a2),(q3,a3),(q4,a4),(q5,a5),(q6,a6)]).2.core_score
        = 2 * respValue a0 + 2 * respValue a1 + 2 * respValue a2 +
          1 * respValue a3 + 2 * respValue a4 ∧
      (analyze_skin_cancer_risk
        [(q0,a0),(q1,a1),(q2,a2),(q3,a3),(q4,a4),(q5,a5),(q6,a6)]).2.adjunct_score
        = 1 * respValue a5 + 1 * respValue a6 ∧
      (analyze_skin_cancer_risk
        [(q0,a0),(q1,a1),(q2,a2),(q3,a3),(q4,a4),(q5,a5),(q6,a6)]).2.any_adjunct_yes
        = decide (respValue a5 = 1 ∨ respValue a6 = 1) ∧
      (analyze_skin_cancer_risk
        [(q0,a0),(q1,a1),(q2,a2),(q3,a3),(q4,a4),(q5,a5),(q6,a6)]).2.risk_level
        = (if 6 ≤ 2 * respValue a0 + 2 * respValue a1 + 2 * respValue a2 +
                1 * respValue a3 + 2 * respValue a4 ∨
              (5 ≤ 2 * respValue a0 + 2 * respValue a1 + 2 * respValue a2 +
                1 * respValue a3 + 2 * respValue a4 ∧
               (respValue a5 = 1 ∨ respValue a6 = 1)) then "high"
           else if (4 ≤ 2 * respValue a0 + 2 * respValue a1 + 2 * respValue a2 +
                1 * respValue a3 + 2 * respValue a4 ∧
                2 * respValue a0 + 2 * respValue a1 + 2 * respValue a2 +
                1 * respValue a3 + 2 * respValue a4 ≤ 5) ∨
              (2 * respValue a0 + 2 * respValue a1 + 2 * respValue a2 +
                1 * respValue a3 + 2 * respValue a4 = 3 ∧
               (respValue a5 = 1 ∨ respValue a6 = 1)) then "moderate"
           else "low") ∧
      (analyze_skin_cancer_risk
        [(q0,a0),(q1,a1),(q2,a2),(q3,a3),(q4,a4),(q5,a5),(q6,a6)]).1
        = ((analyze_skin_cancer_risk
            [(q0,a0),(q1,a1),(q2,a2),(q3,a3),(q4,a4),(q5,a5),(q6,a6)]).2.risk_level
              = "high"
           || ((analyze_skin_cancer_risk
               [(q0,a0),(q1,a1),(q2,a2),(q3,a3),(q4,a4),(q5,a5),(q6,a6)]).2.risk_level
                = "moderate"
              && decide (respValue a5 = 1 ∨ respValue a6 = 1))) ∧
      (analyze_skin_cancer_risk
        [(q0,a0),(q1,a1),(q2,a2),(q3,a3),(q4,a4),(q5,a5),(q6,a6)]).2.image_recommended
        = (analyze_skin_cancer_risk
            [(q0,a0),(q1,a1),(q2,a2),(q3,a3),(q4,a4),(q5,a5),(q6,a6)]).1) ∧
    ((analyze_skin_cancer_risk [("q1","yes"),("q2","yes"),("q3","yes"),
        ("q4","no"),("q5","no"),("q6","no"),("q7","no")]).2.core_score = 6 ∧
     (analyze_skin_cancer_risk [("q1","yes"),("q2","yes"),("q3","yes"),
        ("q4","no"),("q5","no"),("q6","no"),("q7","no")]).2.risk_level = "high" ∧
     (analyze_skin_cancer_risk [("q1","yes"),("q2","yes"),("q3","yes"),
        ("q4","no"),("q5","no"),("q6","no"),("q7","no")]).1 = true) := by
  constructor
  · intro q0 q1 q2 q3 q4 q5 q6 a0 a1 a2 a3 a4 a5 a6
    refine ⟨?_, ?_, ?_, ?_, ?_, ?_⟩ <;>
      simp [analyze_skin_cancer_risk, riskDetails, riskDetailsAux, mkRiskDetail,
        skinWeights, coreScoreOf, adjunctScoreOf, anyAdjunctYesOf, riskLevelOf]
  · simp [analyze_skin_cancer_risk, riskDetails, riskDetailsAux, mkRiskDetail,
      skinWeights, coreScoreOf, anyAdjunctYesOf, riskLevelOf, respValue_yes,
      respValue_no]
    norm_num

/-- C10: answers beyond the seventh get weight 0 and are categorised as
adjunct, so they contribute nothing to the scores and cannot change the
returned risk tier or image recommendation: the assessment of any answer map
equals the assessment of its first seven entries. -/
theorem C10_extra_answers_ignored (rs : List (String × String)) :
    (analyze_skin_cancer_risk rs).1 = (analyze_skin_cancer_risk (rs.take 7)).1 ∧
    (analyze_skin_cancer_risk rs).2.core_score
      = (analyze_skin_cancer_risk (rs.take 7)).2.core_score ∧
    (analyze_skin_cancer_risk rs).2.adjunct_score
      = (analyze_skin_cancer_risk (rs.take 7)).2.adjunct_score ∧
    (analyze_skin_cancer_risk rs).2.risk_level
      = (analyze_skin_cancer_risk (rs.take 7)).2.risk_level ∧
    (analyze_skin_cancer_risk rs).2.image_recommended
      = (analyze_skin_cancer_risk (rs.take 7)).2.image_recommended ∧
    (analyze_skin_cancer_risk rs).2.any_adjunct_yes
      = (analyze_skin_cancer_risk (rs.take 7)).2.any_adjunct_yes ∧
    (∀ d ∈ (analyze_skin_cancer_risk rs).2.details,
      7 ≤ d.index → d.weight = 0 ∧ d.adjunct = true) := by
  have hdetail : ∀ d ∈ (analyze_skin_cancer_risk rs).2.details,
      7 ≤ d.index → d.weight = 0 ∧ d.adjunct = true := by
    intro d hd hidx
    have hw := riskDetailsAux_weight_by_index rs 0 d hd
    rw [skinWeights_ge7 d.index hidx] at hw
    exact ⟨hw.1, hw.2⟩
  rcases le_or_lt rs.length 7 with hle | hlt
  · rw [List.take_of_length_le hle]
    exact ⟨rfl, rfl, rfl, rfl, rfl, rfl, hdetail⟩
  · have hsplit : rs.take 7 ++ rs.drop 7 = rs := List.take_append_drop 7 rs
    have hlen : (rs.take 7).length = 7 := by
      rw [List.length_take]
      omega
    have hds : riskDetails rs
        = riskDetails (rs.take 7) ++ riskDetailsAux 7 (rs.drop 7) := by
      unfold riskDetails
      conv_lhs => rw [← hsplit]
      rw [riskDetailsAux_append, hlen]
    have hadj : ∀ d ∈ riskDetailsAux 7 (rs.drop 7), d.adjunct = true :=
      fun d hd => (riskDetailsAux_ge7 _ 7 le_rfl d hd).2.1
    have hwz : ∀ d ∈ riskDetailsAux 7 (rs.drop 7), d.weight = 0 :=
      fun d hd => (riskDetailsAux_ge7 _ 7 le_rfl d hd).1
    have hcz : ∀ d ∈ riskDetailsAux 7 (rs.drop 7), d.contribution = 0 :=
      fun d hd => (riskDetailsAux_ge7 _ 7 le_rfl d hd).2.2
    have hcore : coreScoreOf (riskDetails rs)
        = coreScoreOf (riskDetails (rs.take 7)) := by
      rw [hds]
      unfold coreScoreOf
      rw [List.foldl_append, foldl_core_skip _ hadj]
    have hadjs : adjunctScoreOf (riskDetails rs)
        = adjunctScoreOf (riskDetails (rs.take 7)) := by
      rw [hds]
      unfold adjunctScoreOf
      rw [List.foldl_append, foldl_adjunct_zero _ hcz]
    have hany : anyAdjunctYesOf (riskDetails rs)
        = anyAdjunctYesOf (riskDetails (rs.take 7)) := by
      rw [hds, anyAdjunctYesOf_append_zero _ _ hwz]
    refine ⟨?_, ?_, ?_, ?_, ?_, ?_, hdetail⟩ <;>
      simp only [analyze_skin_cancer_risk, hcore, hadjs, hany]

/-- C4: for every diagnosis text, rank position, sampling temperature, total
candidate count and symptom text, the confidence scorer returns a value in
the closed interval [0.25, 0.92]. -/
theorem C4_confidence_bounds (text : String) (position : Nat) (temp : ℚ)
    (total : Nat) (sym : String) :
    1/4 ≤ calculate_enhanced_confidence text position temp total sym ∧
    calculate_enhanced_confidence text position temp total sym ≤ 23/25 := by
  unfold calculate_enhanced_confidence
  exact ⟨le_max_left _ _, max_le (by norm_num) (min_le_left _ _)⟩

/-- C8: for fixed diagnosis text, temperature, candidate count and symptoms,
the confidence scorer is monotonically non-increasing in the rank position. -/
theorem C8_monotonic_decay (text : String) (k : Nat) (temp : ℚ)
    (total : Nat) (sym : String) :
    calculate_enhanced_confidence text (k+1) temp total sym
      ≤ calculate_enhanced_confidence text k temp total sym := by
  set c : ℚ := max (3/5) (1 - temp * (3/2)) * (1/5)
    + calculate_diagnosis_specificity text * (1/5)
    + calculate_symptom_alignment text sym * (3/20)
    + get_condition_commonality text * (1/10)
    + assess_diagnosis_quality text * (1/10) with hc
  have hc0 : 0 ≤ c := by
    have h1 : 0 ≤ max (3/5 : ℚ) (1 - temp * (3/2)) * (1/5) :=
      mul_nonneg (temp_factor_nonneg temp) (by norm_num)
    have h2 : 0 ≤ calculate_diagnosis_specificity text * (1/5) :=
      mul_nonneg (specificity_nonneg text) (by norm_num)
    have h3 : 0 ≤ calculate_symptom_alignment text sym * (3/20) :=
      mul_nonneg (alignment_nonneg text sym) (by norm_num)
    have h4 : 0 ≤ get_condition_commonality text * (1/10) :=
      mul_nonneg (commonality_nonneg text) (by norm_num)
    have h5 : 0 ≤ assess_diagnosis_quality text * (1/10) :=
      mul_nonneg (quality_nonneg text) (by norm_num)
    rw [hc]
    linarith
  have harith : ∀ pf : ℚ, pf * (1/4) + max (3/5) (1 - temp * (3/2)) * (1/5)
      + calculate_diagnosis_specificity text * (1/5)
      + calculate_symptom_alignment text sym * (3/20)
      + get_condition_commonality text * (1/10)
      + assess_diagnosis_quality text * (1/10) = pf * (1/4) + c := by
    intro pf
    rw [hc]
    ring
  have hbase : ∀ p : Nat, calculate_enhanced_confidence text p temp total sym
      = max (1/4) (min (23/25)
          (if 2 ≤ p then ((19/20:ℚ)^p * (1/4) + c) * (17/20:ℚ)^(p-1)
           else (19/20:ℚ)^p * (1/4) + c)) := by
    intro p
    simp only [calculate_enhanced_confidence, harith]
  rw [hbase (k+1), hbase k]
  have hfmono : ∀ p : Nat, (19/20:ℚ)^(p+1) * (1/4) + c ≤ (19/20:ℚ)^p * (1/4) + c := by
    intro p
    have : (19/20:ℚ)^(p+1) ≤ (19/20:ℚ)^p :=
      pow_le_pow_of_le_one (by norm_num) (by norm_num) (Nat.le_succ p)
    linarith
  have hf0 : ∀ p : Nat, 0 ≤ (19/20:ℚ)^p * (1/4) + c := by
    intro p
    have hp : (0:ℚ) ≤ (19/20:ℚ)^p * (1/4) := by positivity
    exact add_nonneg hp hc0
  have hX : (if 2 ≤ k+1 then ((19/20:ℚ)^(k+1) * (1/4) + c) * (17/20:ℚ)^(k+1-1)
           else (19/20:ℚ)^(k+1) * (1/4) + c)
      ≤ (if 2 ≤ k then ((19/20:ℚ)^k * (1/4) + c) * (17/20:ℚ)^(k-1)
           else (19/20:ℚ)^k * (1/4) + c) := by
    match k with
    | 0 =>
      rw [if_neg (show ¬(2:Nat) ≤ 0+1 by omega), if_neg (show ¬(2:Nat) ≤ 0 by omega)]
      exact hfmono 0
    | 1 =>
      rw [if_pos (show (2:Nat) ≤ 1+1 by omega), if_neg (show ¬(2:Nat) ≤ 1 by omega)]
      have e : (1:Nat) + 1 - 1 = 1 := rfl
      rw [e, pow_one]
      have h1 : ((19/20:ℚ)^(1+1) * (1/4) + c) * (17/20:ℚ)
          ≤ (19/20:ℚ)^(1+1) * (1/4) + c := by
        nlinarith [hf0 (1+1)]
      exact le_trans h1 (hfmono 1)
    | n+2 =>
      have ht : 2 ≤ n + 2 := by omega
      have ht' : 2 ≤ n + 3 := by omega
      rw [if_pos ht, if_pos (show 2 ≤ n+2+1 by omega)]
      have e1 : n + 2 + 1 - 1 = n + 2 := by omega
      have e2 : n + 2 - 1 = n + 1 := by omega
      rw [e1, e2]
      have hstep1 : ((19/20:ℚ)^(n+2+1) * (1/4) + c) * (17/20:ℚ)^(n+2)
          ≤ ((19/20:ℚ)^(n+2) * (1/4) + c) * (17/20:ℚ)^(n+2) :=
        mul_le_mul_of_nonneg_right (hfmono (n+2)) (by positivity)
      have hstep2 : ((19/20:ℚ)^(n+2) * (1/4) + c) * (17/20:ℚ)^(n+2)
          ≤ ((19/20:ℚ)^(n+2) * (1/4) + c) * (17/20:ℚ)^(n+1) :=
        mul_le_mul_of_nonneg_left
          (pow_le_pow_of_le_one (by norm_num) (by norm_num) (by omega))
          (hf0 (n+2))
      exact le_trans hstep1 hstep2
  exact max_le_max le_rfl (min_le_min le_rfl hX)

/-- C5 counterexample: on a generated text whose diagnosis label line has no
accompanying confidence line, the parser returns the empty list — the
candidate is dropped, not kept with unset confidence. -/
theorem C5_counterexample_label_without_confidence :
    parse_diagnosis_details "- Diagnosis: Common Cold" = some [] ∧
    ¬ ∃ (l : List TextualSymptomAnalysisResult)
        (c : TextualSymptomAnalysisResult),
      parse_diagnosis_details "- Diagnosis: Common Cold" = some l ∧
        c ∈ l ∧ c.text_diagnosis = "Common Cold" := by
  refine ⟨by decide, ?_⟩
  rintro ⟨l, c, hl, hc, -⟩
  have h0 : parse_diagnosis_details "- Diagnosis: Common Cold" = some [] := by
    decide
  rw [h0, Option.some_inj] at hl
  subst hl
  exact absurd hc (List.not_mem_nil c)

/-- C5 (amended): a diagnosis label line without an accompanying confidence
line is dropped by the parser rather than kept with unset confidence (and no
exception is raised for it): every candidate the parser returns carries a set
confidence, and a label-only text parses to the empty list. -/
theorem C5_parser_requires_confidence :
    (∀ s l, parse_diagnosis_details s = some l →
      ∀ c ∈ l, c.diagnosis_confidence.isSome) ∧
    parse_diagnosis_details "- Diagnosis: Common Cold" = some [] :=
  ⟨parse_confidences_set, by decide⟩

/-- Witness for C5: the amended theorem applied at a concrete parse. -/
theorem C5_parser_requires_confidence_witness :
    ∀ c ∈ [({ text_diagnosis := "x", diagnosis_confidence := some 1 } :
        TextualSymptomAnalysisResult)], c.diagnosis_confidence.isSome :=
  C5_parser_requires_confidence.1 "- diagnosis: x - confidence: 1"
    [{ text_diagnosis := "x", diagnosis_confidence := some 1 }] (by decide)

/-- C2 counterexample: a non-screening session completing textual analysis
with average confidence 2/3 (which is < 0.75) is routed by the LangGraph
router `route_after_llm_diagnosis` to overall analysis, not to generic
follow-up, because that router uses threshold 0.6 rather than 0.75. -/
theorem C2_counterexample_graph_threshold :
    ∃ st1 st2,
      llmDiagnosisNode
          { latest_user_message := "persistent headache and nausea for two days" }
          (.ok "- Diagnosis: A\n- Confidence: 1\n- Diagnosis: B\n- Confidence: 1\n- Diagnosis: C\n- Confidence: 0")
        = some st1 ∧
      st1.requires_skin_cancer_screening = false ∧
      meanConfidence st1.textual_analysis < 3/4 ∧
      route_after_llm_diagnosis st1 = some (st2, "overall_analysis_step") ∧
      "overall_analysis_step" ≠ "followup_interaction" := by
  have hmean : meanConfidence
      [({ text_diagnosis := "A", diagnosis_confidence := some 1 } :
          TextualSymptomAnalysisResult),
       { text_diagnosis := "B", diagnosis_confidence := some 1 },
       { text_diagnosis := "C", diagnosis_confidence := some 0 }] = 2/3 := by
    simp [meanConfidence]
    norm_num
  have hnlt : ¬ meanConfidence
      [({ text_diagnosis := "A", diagnosis_confidence := some 1 } :
          TextualSymptomAnalysisResult),
       { text_diagnosis := "B", diagnosis_confidence := some 1 },
       { text_diagnosis := "C", diagnosis_confidence := some 0 }] < 3/5 := by
    rw [hmean]
    norm_num
  refine ⟨{ latest_user_message := "persistent headache and nausea for two days",
            userInput_symptoms := "persistent headache and nausea for two days",
            requires_skin_cancer_screening := false,
            textual_analysis :=
              [{ text_diagnosis := "A", diagnosis_confidence := some 1 },
               { text_diagnosis := "B", diagnosis_confidence := some 1 },
               { text_diagnosis := "C", diagnosis_confidence := some 0 }],
            image_required := false,
            workflow_path := ["textual_only"],
            current_workflow_stage := "textual_analysis" },
          { latest_user_message := "persistent headache and nausea for two days",
            userInput_symptoms := "persistent headache and nausea for two days",
            requires_skin_cancer_screening := false,
            textual_analysis :=
              [{ text_diagnosis := "A", diagnosis_confidence := some 1 },
               { text_diagnosis := "B", diagnosis_confidence := some 1 },
               { text_diagnosis := "C", diagnosis_confidence := some 0 }],
            average_confidence := some (2/3),
            image_required := false,
            workflow_path := ["textual_only"],
            current_workflow_stage := "textual_analysis" },
          by decide, rfl, ?_, ?_, by decide⟩
  · show meanConfidence
        [({ text_diagnosis := "A", diagnosis_confidence := some 1 } :
            TextualSymptomAnalysisResult),
         { text_diagnosis := "B", diagnosis_confidence := some 1 },
         { text_diagnosis := "C", diagnosis_confidence := some 0 }] < 3/4
    rw [hmean]
    norm_num
  · simp [route_after_llm_diagnosis, hnlt, hmean]
    norm_num

/-- C2 (amended): after textual analysis of a non-screening session, the
state-manager router (used by the per-stage API endpoints) sends the session
to generic follow-up exactly when the average confidence is < 0.75 and
otherwise to overall analysis (the diagnosis node always leaves
`image_required = false` here, so the image branch cannot fire), and the
follow-up node then issues the generic question set; the LangGraph router
`route_after_llm_diagnosis` instead uses threshold 0.6: follow-up iff
avg < 0.6, else image analysis iff flagged, else overall analysis. -/
theorem C2_router_confidence_thresholds :
    (∀ (st : AgentState) (gen : Except String String) (st1 : AgentState),
      st.average_confidence = none →
      llmDiagnosisNode st gen = some st1 →
      st1.requires_skin_cancer_screening = false →
      st1.textual_analysis ≠ [] →
      st1.image_required = false ∧
      ∃ st2 d,
        update_workflow_stage_and_determine_next st1 "textual_analysis"
          = some (st2, d) ∧
        st2.average_confidence = some (meanConfidence st1.textual_analysis) ∧
        d.next_endpoint = (if meanConfidence st1.textual_analysis < 3/4
          then some "/patient/followup_questions"
          else if st1.image_required then some "/patient/image_analysis"
          else some "/patient/overall_analysis") ∧
        (meanConfidence st1.textual_analysis < 3/4 →
          d.needs_user_input = some "followup_questions") ∧
        (generate_questions_phase st2).followup_type = "standard" ∧
        (generate_questions_phase st2).followup_questions
          = universal_medical_questions) ∧
    (∀ st1 : AgentState, st1.textual_analysis ≠ [] →
      (∀ c ∈ st1.textual_analysis, c.diagnosis_confidence.isSome) →
      ∃ st2, route_after_llm_diagnosis st1 = some (st2,
        if meanConfidence st1.textual_analysis < 3/5 then "followup_interaction"
        else if st1.image_required then "image_analysis"
        else "overall_analysis_step")) := by
  constructor
  · intro st gen st1 havg0 hnode hscr hne
    obtain ⟨out, parsed, hgen, hp, hta, himg, havg1, hwp⟩ :=
      llmNode_nonscreening st gen st1 hnode hscr
    have hall : ∀ c ∈ st1.textual_analysis, c.diagnosis_confidence.isSome := by
      rw [hta]
      exact parse_confidences_set out parsed hp
    have havg : st1.average_confidence = none := by rw [havg1, havg0]
    obtain ⟨st2, d, hm, h1, h2, h3, h4, h5⟩ :=
      manager_textual_nonscreening st1 hscr havg hne hall
    refine ⟨himg, st2, d, hm, h1, ?_, h3, ?_, ?_⟩
    · simpa [himg] using h2
    · simp [generate_questions_phase, h5]
    · simp [generate_questions_phase, h5]
  · intro st1 hne hall
    have hany := isNone_any_false _ hall
    have hne' : st1.textual_analysis.isEmpty = false := by
      simpa [List.isEmpty_iff] using hne
    by_cases hlt : meanConfidence st1.textual_analysis < 3/5
    · simp [route_after_llm_diagnosis, hne', hany, hlt]
    · by_cases himg : st1.image_required
      · simp [route_after_llm_diagnosis, hne', hany, hlt, himg]
      · simp [route_after_llm_diagnosis, hne', hany, hlt, himg]

/-- C3: for every symptom text containing a lesion keyword, the initial
diagnosis stage makes no text-generation call (its result is independent of
the collaborator outcome), installs exactly one placeholder candidate with
unset confidence, sets the screening-required flag, and the state-manager
router then sends the session to lesion-screening follow-up without error,
regardless of the unset confidence. -/
theorem C3_lesion_keyword_screening_route :
    ∀ (st : AgentState) (gen gen' : Except String String),
      hasSkinIndicators st.latest_user_message = true →
      llmDiagnosisNode st gen = llmDiagnosisNode st gen' ∧
      ∃ st1, llmDiagnosisNode st gen = some st1 ∧
        st1.textual_analysis = [placeholderSkinDiagnosis] ∧
        placeholderSkinDiagnosis.diagnosis_confidence = none ∧
        st1.requires_skin_cancer_screening = true ∧
        ∃ st2 d,
          update_workflow_stage_and_determine_next st1 "textual_analysis"
            = some (st2, d) ∧
          d.next_endpoint = some "/patient/followup_questions" ∧
          d.needs_user_input = some "followup_questions" ∧
          st2.workflow_path = ["textual_to_skin_screening"] := by
  intro st gen gen' h
  refine ⟨by simp [llmDiagnosisNode, diagnose, h], ?_⟩
  rcases hx : llmDiagnosisNode st gen with _ | st1
  · exfalso
    simp [llmDiagnosisNode, diagnose, h] at hx
  · simp [llmDiagnosisNode, diagnose, h] at hx
    subst hx
    refine ⟨_, rfl, rfl, rfl, rfl, ?_⟩
    exact ⟨_, _, rfl, rfl, rfl, rfl⟩

/-- Witness for C3: the theorem applied to a symptom text containing
"mole", with two different collaborator outcomes. -/
theorem C3_lesion_keyword_screening_route_witness :
    llmDiagnosisNode { latest_user_message := "I found a new mole on my arm" }
        (.ok "")
      = llmDiagnosisNode { latest_user_message := "I found a new mole on my arm" }
        (.error "llm down") ∧
    ∃ st1, llmDiagnosisNode
        { latest_user_message := "I found a new mole on my arm" } (.ok "")
        = some st1 ∧
      st1.textual_analysis = [placeholderSkinDiagnosis] ∧
      placeholderSkinDiagnosis.diagnosis_confidence = none ∧
      st1.requires_skin_cancer_screening = true ∧
      ∃ st2 d,
        update_workflow_stage_and_determine_next st1 "textual_analysis"
          = some (st2, d) ∧
        d.next_endpoint = some "/patient/followup_questions" ∧
        d.needs_user_input = some "followup_questions" ∧
        st2.workflow_path = ["textual_to_skin_screening"] :=
  C3_lesion_keyword_screening_route
    { latest_user_message := "I found a new mole on my arm" }
    (.ok "") (.error "llm down") (by decide)

/-- Witness for C2: the state-manager part of the amended theorem applied to
a concrete non-screening session with one parsed candidate. -/
theorem C2_router_confidence_thresholds_witness :
    c2WitnessState.image_required = false ∧
    ∃ st2 d,
      update_workflow_stage_and_determine_next c2WitnessState "textual_analysis"
        = some (st2, d) ∧
      st2.average_confidence = some (meanConfidence c2WitnessState.textual_analysis) ∧
      d.next_endpoint = (if meanConfidence c2WitnessState.textual_analysis < 3/4
        then some "/patient/followup_questions"
        else if c2WitnessState.image_required then some "/patient/image_analysis"
        else some "/patient/overall_analysis") ∧
      (meanConfidence c2WitnessState.textual_analysis < 3/4 →
        d.needs_user_input = some "followup_questions") ∧
      (generate_questions_phase st2).followup_type = "standard" ∧
      (generate_questions_phase st2).followup_questions
        = universal_medical_questions :=
  C2_router_confidence_thresholds.1
    { latest_user_message := "persistent headache and nausea for two days" }
    (.ok "- Diagnosis: Migraine\n- Confidence: 1")
    c2WitnessState rfl (by decide) rfl (by decide)

/-- C6: a lesion-screening questionnaire whose risk assessment does not
recommend an image makes the follow-up stage discard the provisional
screening outcome (placeholder diagnosis and stored responses) and re-enter
its question phase with the generic question set, marking the session as
awaiting answers again; the state manager records the transition in
`workflow_path`; and along any sequence of follow-up round-trips the
screening-to-generic transition happens at most once. -/
theorem C6_negative_screening_reenters_generic :
    (∀ (st : AgentState) (r : List (String × String)) (g : Except String String),
      st.followup_type = "skin_cancer_screening" → ¬ r.isEmpty →
      (analyze_skin_cancer_risk r).1 = false →
      ∃ st', followupSessionStep st r g = some st' ∧
        st'.followup_type = "standard" ∧
        st'.requires_user_input = true ∧
        st'.current_workflow_stage = "awaiting_followup_responses" ∧
        st'.followup_questions = universal_medical_questions ∧
        st'.followup_response = [] ∧
        st'.followup_diagnosis = [] ∧
        st'.requires_skin_cancer_screening = false ∧
        st'.image_required = false ∧
        st'.skin_cancer_risk_metrics = some (analyze_skin_cancer_risk r).2) ∧
    (∀ st' : AgentState, st'.requires_user_input = true →
      st'.followup_type = "standard" →
      "textual_to_skin_screening" ∈ st'.workflow_path →
      ∃ st2 d,
        update_workflow_stage_and_determine_next st' "followup_interaction"
          = some (st2, d) ∧
        st2.workflow_path
          = ["textual_to_skin_screening", "skin_to_standard_followup"] ∧
        d.current_stage = "awaiting_followup_responses" ∧
        d.next_endpoint = some "/patient/followup_questions" ∧
        d.needs_user_input = some "followup_questions") ∧
    (∀ (inputs : List (List (String × String) × Except String String))
        (st : AgentState), screeningSwitchCount st inputs ≤ 1) := by
  refine ⟨processScreeningNegative, ?_, fun inputs st =>
    screeningSwitchCount_le_one inputs st⟩
  intro st' h1 h2 h3
  simp [update_workflow_stage_and_determine_next, h1, h2, h3]
  exact ⟨_, _, ⟨rfl, rfl⟩, rfl, rfl, rfl, rfl⟩

/-- Witness for C6: scenario D (all answers "no") on a screening session,
and the state-manager transition record on a re-armed generic session. -/
theorem C6_negative_screening_reenters_generic_witness :
    (∃ st', followupSessionStep { followup_type := "skin_cancer_screening" }
        [("q1","no"),("q2","no"),("q3","no"),("q4","no"),("q5","no"),
         ("q6","no"),("q7","no")] (.ok "") = some st' ∧
      st'.followup_type = "standard" ∧
      st'.requires_user_input = true ∧
      st'.current_workflow_stage = "awaiting_followup_responses" ∧
      st'.followup_questions = universal_medical_questions ∧
      st'.followup_response = [] ∧
      st'.followup_diagnosis = [] ∧
      st'.requires_skin_cancer_screening = false ∧
      st'.image_required = false ∧
      st'.skin_cancer_risk_metrics = some (analyze_skin_cancer_risk
        [("q1","no"),("q2","no"),("q3","no"),("q4","no"),("q5","no"),
         ("q6","no"),("q7","no")]).2) ∧
    (∃ st2 d,
      update_workflow_stage_and_determine_next
          { requires_user_input := true, followup_type := "standard",
            workflow_path := ["textual_to_skin_screening"] }
          "followup_interaction"
        = some (st2, d) ∧
      st2.workflow_path
        = ["textual_to_skin_screening", "skin_to_standard_followup"] ∧
      d.current_stage = "awaiting_followup_responses" ∧
      d.next_endpoint = some "/patient/followup_questions" ∧
      d.needs_user_input = some "followup_questions") :=
  ⟨C6_negative_screening_reenters_generic.1
      { followup_type := "skin_cancer_screening" }
      [("q1","no"),("q2","no"),("q3","no"),("q4","no"),("q5","no"),
       ("q6","no"),("q7","no")] (.ok "") rfl (by decide)
      (by
        simp [analyze_skin_cancer_risk, riskDetails, riskDetailsAux,
          mkRiskDetail, skinWeights, coreScoreOf, anyAdjunctYesOf,
          riskLevelOf, respValue_no]
        norm_num
        decide),
   C6_negative_screening_reenters_generic.2.1
      { requires_user_input := true, followup_type := "standard",
        workflow_path := ["textual_to_skin_screening"] }
      rfl rfl (by decide)⟩

/-- C7: an image payload whose decode or classification fails leads the
image-classification stage to store an explicit error label with an empty
probability map instead of raising, and the synthesis stage always stores a
populated overall-analysis record, whatever the outcome of its body. -/
theorem C7_image_error_and_synthesis_totality :
    (∀ (st : AgentState) (e : String), st.image_input.isSome →
      (classify_skinLesion st (.error e)).skin_lesion_analysis
        = some { image_diagnosis := "Error analyzing image: " ++ e,
                 confidence_score := [] }) ∧
    (∀ (st : AgentState) (body : Except String OverallAnalysis),
      (perform_overall_analysis st body).overall_analysis.isSome) ∧
    (∀ (st : AgentState) (outcome : Except String (String × List (String × ℚ)))
        (body : Except String OverallAnalysis),
      (overallAnalysisNode (imageClassificationNode st outcome) body).overall_analysis.isSome) := by
  refine ⟨?_, ?_, ?_⟩
  · intro st e h
    rcases hi : st.image_input with _ | payload
    · rw [hi] at h; simp at h
    · simp [classify_skinLesion, hi]
  · intro st body
    rcases body with e | a <;> simp [perform_overall_analysis]
  · intro st outcome body
    rcases body with e | a <;>
      simp [overallAnalysisNode, perform_overall_analysis]

/-- Witness for C7: a corrupted payload on a concrete session stores the
error label, and synthesis on the resulting state still completes. -/
theorem C7_image_error_and_synthesis_totality_witness :
    (classify_skinLesion { image_input := some "corrupted-bytes" }
        (.error "cannot identify image file")).skin_lesion_analysis
      = some { image_diagnosis :=
                 "Error analyzing image: " ++ "cannot identify image file",
               confidence_score := [] } ∧
    (perform_overall_analysis { image_input := some "corrupted-bytes" }
        (.error "No image analysis available")).overall_analysis.isSome :=
  ⟨C7_image_error_and_synthesis_totality.1
      { image_input := some "corrupted-bytes" } "cannot identify image file"
      (by decide),
   C7_image_error_and_synthesis_totality.2.1
      { image_input := some "corrupted-bytes" }
      (.error "No image analysis available")⟩

/-- C3 counterexample: on the placeholder state produced for a "mole"
symptom text, the LangGraph router `route_after_llm_diagnosis` errors
(TypeError summing the unset confidence, modelled as `none`) instead of
sending the session to lesion-screening follow-up. -/
theorem C3_counterexample_graph_router_error :
    ∃ st1, llmDiagnosisNode
        { latest_user_message := "I found a new mole on my arm" } (.ok "")
        = some st1 ∧
      st1.requires_skin_cancer_screening = true ∧
      route_after_llm_diagnosis st1 = none := by
  refine ⟨{ latest_user_message := "I found a new mole on my arm",
            userInput_skin_symptoms := "I found a new mole on my arm",
            requires_skin_cancer_screening := true,
            textual_analysis := [placeholderSkinDiagnosis],
            average_confidence := some 0,
            image_required := false,
            workflow_path := ["textual_only"],
            current_workflow_stage := "textual_analysis" },
          by decide, rfl, by decide⟩

/-- C9 counterexample: the diagnosis node records the tag "textual_only" in
`workflow_path`, and the next router step (`route_after_llm_diagnosis`)
replaces the whole path with ["textual_to_followup"], removing that earlier
tag — so workflowPath is not append-only. -/
theorem C9_counterexample_path_replaced :
    ∃ st1 st2,
      llmDiagnosisNode { latest_user_message := "persistent headache" }
          (.ok "- Diagnosis: Tension Headache\n- Confidence: 0")
        = some st1 ∧
      "textual_only" ∈ st1.workflow_path ∧
      route_after_llm_diagnosis st1 = some (st2, "followup_interaction") ∧
      st2.workflow_path = ["textual_to_followup"] ∧
      "textual_only" ∉ st2.workflow_path := by
  have hmean : meanConfidence
      [({ text_diagnosis := "Tension Headache", diagnosis_confidence := some 0 } :
          TextualSymptomAnalysisResult)] = 0 := by
    simp [meanConfidence]
  have hlt : meanConfidence
      [({ text_diagnosis := "Tension Headache", diagnosis_confidence := some 0 } :
          TextualSymptomAnalysisResult)] < 3/5 := by
    rw [hmean]
    norm_num
  refine ⟨{ latest_user_message := "persistent headache",
            userInput_symptoms := "persistent headache",
            requires_skin_cancer_screening := false,
            textual_analysis :=
              [{ text_diagnosis := "Tension Headache",
                 diagnosis_confidence := some 0 }],
            image_required := false,
            workflow_path := ["textual_only"],
            current_workflow_stage := "textual_analysis" },
          { latest_user_message := "persistent headache",
            userInput_symptoms := "persistent headache",
            requires_skin_cancer_screening := false,
            textual_analysis :=
              [{ text_diagnosis := "Tension Headache",
                 diagnosis_confidence := some 0 }],
            average_confidence := some 0,
            image_required := false,
            workflow_path := ["textual_to_followup"],
            current_workflow_stage := "textual_analysis" },
          by decide, by decide, ?_, rfl, by decide⟩
  simp [route_after_llm_diagnosis, hlt, hmean]

/-- C9 (amended): workflowPath is not append-only.  The LangGraph router
after textual analysis assigns the path wholesale to one of three fixed
singletons, independent of (and discarding) whatever an earlier step
recorded; the state manager after follow-up either leaves the path alone or
likewise overwrites it with a fixed two-tag list; only the post-follow-up
graph router extends the existing path at its end. -/
theorem C9_workflow_path_assignment :
    (∀ (st st2 : AgentState) (nxt : String),
      route_after_llm_diagnosis st = some (st2, nxt) →
      st2.workflow_path = ["textual_to_followup"] ∨
      st2.workflow_path = ["textual_to_image"] ∨
      st2.workflow_path = ["textual_only"]) ∧
    (∀ st : AgentState, st.requires_user_input = false →
      ∃ tag, (route_after_followup_interaction st).1.workflow_path
          = st.workflow_path ++ [tag] ∧
        (tag = "followup_to_image" ∨ tag = "followup_only")) ∧
    (∀ (st st2 : AgentState) (d : WorkflowDirective),
      update_workflow_stage_and_determine_next st "followup_interaction"
        = some (st2, d) →
      st2.workflow_path = st.workflow_path ∨
      st2.workflow_path
        = ["textual_to_skin_screening", "skin_to_standard_followup"] ∨
      st2.workflow_path
        = ["textual_to_skin_screening", "skin_to_image_analysis"]) := by
  refine ⟨?_, ?_, ?_⟩
  · intro st st2 nxt h
    by_cases hemp : st.textual_analysis.isEmpty
    · simp [route_after_llm_diagnosis, hemp,
        show (0:ℚ) < 3/5 by norm_num] at h
      rw [← h.1]
      exact Or.inl rfl
    · by_cases hany : st.textual_analysis.any
          (fun d => d.diagnosis_confidence.isNone)
      · simp [route_after_llm_diagnosis, hemp, hany] at h
      · by_cases hlt : meanConfidence st.textual_analysis < 3/5
        · simp [route_after_llm_diagnosis, hemp, hany, hlt] at h
          rw [← h.1]
          exact Or.inl rfl
        · by_cases himg : st.image_required
          · simp [route_after_llm_diagnosis, hemp, hany, hlt, himg] at h
            rw [← h.1]
            exact Or.inr (Or.inl rfl)
          · simp [route_after_llm_diagnosis, hemp, hany, hlt, himg] at h
            rw [← h.1]
            exact Or.inr (Or.inr rfl)
  · intro st hru
    by_cases himg : st.image_required
    · exact ⟨"followup_to_image",
        by simp [route_after_followup_interaction, hru, himg], Or.inl rfl⟩
    · exact ⟨"followup_only",
        by simp [route_after_followup_interaction, hru, himg], Or.inr rfl⟩
  · intro st st2 d h
    by_cases b1 : st.requires_user_input = true ∧ st.followup_type = "standard"
        ∧ "textual_to_skin_screening" ∈ st.workflow_path
    · simp [update_workflow_stage_and_determine_next, b1] at h
      rw [← h.1]
      exact Or.inr (Or.inl rfl)
    · by_cases himg : st.image_required
      · simp [update_workflow_stage_and_determine_next, b1, himg] at h
        rw [← h.1]
        exact Or.inr (Or.inr rfl)
      · simp [update_workflow_stage_and_determine_next, b1, himg] at h
        rw [← h.1]
        exact Or.inl rfl

/-- Witness for C9: the amended theorem applied to concrete states for all
three router steps. -/
theorem C9_workflow_path_assignment_witness :
    (({ average_confidence := some 0,
        workflow_path := ["textual_to_followup"] } : AgentState).workflow_path
        = ["textual_to_followup"] ∨
     ({ average_confidence := some 0,
        workflow_path := ["textual_to_followup"] } : AgentState).workflow_path
        = ["textual_to_image"] ∨
     ({ average_confidence := some 0,
        workflow_path := ["textual_to_followup"] } : AgentState).workflow_path
        = ["textual_only"]) ∧
    (∃ tag, (route_after_followup_interaction
        { requires_user_input := false,
          workflow_path := ["textual_to_skin_screening"] }).1.workflow_path
        = ({ requires_user_input := false,
             workflow_path := ["textual_to_skin_screening"] } : AgentState).workflow_path
          ++ [tag] ∧
      (tag = "followup_to_image" ∨ tag = "followup_only")) ∧
    (({ requires_user_input := false } : AgentState).workflow_path
        = ({ requires_user_input := false } : AgentState).workflow_path ∨
     ({ requires_user_input := false } : AgentState).workflow_path
        = ["textual_to_skin_screening", "skin_to_standard_followup"] ∨
     ({ requires_user_input := false } : AgentState).workflow_path
        = ["textual_to_skin_screening", "skin_to_image_analysis"]) :=
  ⟨C9_workflow_path_assignment.1 {}
      { average_confidence := some 0, workflow_path := ["textual_to_followup"] }
      "followup_interaction"
      (by simp [route_after_llm_diagnosis, show (0:ℚ) < 3/5 by norm_num]),
   C9_workflow_path_assignment.2.1
      { requires_user_input := false,
        workflow_path := ["textual_to_skin_screening"] } rfl,
   C9_workflow_path_assignment.2.2 { requires_user_input := false }
      { requires_user_input := false }
      { current_stage := "followup_analysis_complete",
        next_endpoint := some "/patient/overall_analysis",
        needs_user_input := none,
        next_step_description :=
          "Ready for comprehensive analysis with follow-up data",
        workflow_complete := false, show_next_button := true,
        confidence_score := 1/2, image_required := false } rfl⟩

end Healthcare
